import Mathlib

/-!
Shallow embedding of the credential lifecycle engine of
CodePawfect/hexagonal-auth-service (Go).

Conventions of the embedding:
* Go `[]byte` and `string` values are both modelled as Lean `String`
  (the code only ever converts between them byte-wise).
* Go `error` values are modelled by the inductive `GoErr`: library
  sentinel errors (`bcrypt.ErrMismatchedHashAndPassword`,
  `mongo.ErrNoDocuments`, bcrypt's malformed-digest error) are dedicated
  constructors, `fmt.Errorf` without `%w` is `errorString`, and
  `fmt.Errorf "ctx: %w"` is `wrapped`; `errors.Is` walks the wrap chain.
* The MongoDB `user` collection is a list of documents in insertion
  order; `FindOne` returns the first document matching the username
  filter.  The store is modelled healthy: inserts and lookups do not
  fail spuriously (infrastructure faults are outside the program text).
* `time.Now()` and bcrypt's salt generator are oracles, passed in as
  explicit `now : Int` (unix seconds) and `salt : Nat` arguments.
* The compact JWT serialization produced by `token.SignedString(key)` is
  an injective encoding of the header and claims together with an HMAC
  over them; a signed token string is therefore modelled by the
  structure `SignedJwt` carrying the signing method, the claims and the
  key the HMAC was computed with.
* Each operation additionally returns a `List CoreOp` trace recording
  the store reads/writes, hash invocations and signing steps it
  performed, so that frame conditions ("no other side effect") are
  statable.
-/

/-- Model of Go `error` values as used by this repository. -/
inductive GoErr
  /-- An error built by `fmt.Errorf` / `errors.New` without `%w`. -/
  | errorString (msg : String)
  /-- The sentinel `bcrypt.ErrMismatchedHashAndPassword`. -/
  | errMismatchedHashAndPassword
  /-- bcrypt's malformed-digest failure (`ErrHashTooShort` family). -/
  | errHashTooShort
  /-- The sentinel `mongo.ErrNoDocuments`. -/
  | errMongoNoDocuments
  /-- An error built by `fmt.Errorf "ctx: %w"`, wrapping an inner error. -/
  | wrapped (ctx : String) (inner : GoErr)
deriving DecidableEq

/-- The `Error()` message of a modelled Go error. -/
def GoErr.message : GoErr → String
  | .errorString msg => msg
  | .errMismatchedHashAndPassword =>
      "crypto/bcrypt: hashedPassword is not the hash of the given password"
  | .errHashTooShort =>
      "crypto/bcrypt: hashedSecret too short to be a bcrypted password"
  | .errMongoNoDocuments => "mongo: no documents in result"
  | .wrapped ctx inner => ctx ++ inner.message

/-- Go `errors.Is`: equality against the target, unwrapping `%w` chains. -/
def errorsIs (e target : GoErr) : Bool :=
  (e = target) ||
    match e with
    | .wrapped _ inner => errorsIs inner target
    | _ => false

/-! ## bcrypt (golang.org/x/crypto/bcrypt)

A bcrypt digest encodes the algorithm, the cost and the salt next to a
one-way function of the password, and `CompareHashAndPassword` re-derives
that function from the candidate password and the encoded salt.  The
embedding keeps the digest self-describing: a digest is a character list
`$ cᶜᵒˢᵗ $ sˢᵃˡᵗ $ password`, and comparison parses it back.  No code in
the repository ever inspects the inside of a digest, so identifying the
one-way image with the password itself is behaviour-preserving. -/

/-- Counts a leading run of the character `c` terminated by `'$'`,
returning the run length and the remainder after the terminator. -/
def parseRun (c : Char) : List Char → Option (Nat × List Char)
  | [] => none
  | x :: rest =>
    if x = '$' then some (0, rest)
    else if x = c then (parseRun c rest).map (fun p => (p.1 + 1, p.2))
    else none

/-- The character-level bcrypt digest of a password for a cost and salt. -/
def bcryptDigestChars (cost salt : Nat) (password : List Char) : List Char :=
  '$' :: (List.replicate cost 'c' ++ '$' :: (List.replicate salt 's' ++ '$' :: password))

/-- Parses a bcrypt digest back into its cost, salt and one-way image. -/
def bcryptParseChars : List Char → Option (Nat × Nat × List Char)
  | '$' :: rest =>
    match parseRun 'c' rest with
    | none => none
    | some (cost, r1) =>
      match parseRun 's' r1 with
      | none => none
      | some (salt, r2) => some (cost, salt, r2)
  | _ => none

/-- `bcrypt.DefaultCost`. -/
def bcryptDefaultCost : Nat := 10

/-- `bcrypt.GenerateFromPassword(password, cost)` with the salt drawn from
the randomness oracle.  For a valid cost (the code always passes
`DefaultCost`) generation does not fail. -/
def bcryptGenerateFromPassword (password : String) (cost salt : Nat) : String :=
  String.mk (bcryptDigestChars cost salt password.data)

/-- `bcrypt.CompareHashAndPassword(hashed, password)`: `none` on a match,
`ErrMismatchedHashAndPassword` on a clean mismatch, and the
malformed-digest error when the digest does not parse. -/
def bcryptCompareHashAndPassword (hashedPassword password : String) : Option GoErr :=
  match bcryptParseChars hashedPassword.data with
  | none => some .errHashTooShort
  | some (_cost, _salt, image) =>
    if image = password.data then none else some .errMismatchedHashAndPassword

/-! ## JWT (github.com/golang-jwt/jwt/v5) -/

/-- A JWT claim value, as placed into `jwt.MapClaims` by this code. -/
inductive JwtValue
  | str (s : String)
  | int (n : Int)
deriving DecidableEq

/-- `jwt.MapClaims` assignment `claims[k] = v`, modelled on an association
list in insertion order: replace an existing key or append. -/
def mapClaimsSet : List (String × JwtValue) → String → JwtValue → List (String × JwtValue)
  | [], k, v => [(k, v)]
  | (k', v') :: rest, k, v =>
    if k' = k then (k, v) :: rest else (k', v') :: mapClaimsSet rest k v

/-- `jwt.MapClaims` lookup `claims[k]`. -/
def mapClaimsGet : List (String × JwtValue) → String → Option JwtValue
  | [], _ => none
  | (k', v') :: rest, k => if k' = k then some v' else mapClaimsGet rest k

/-- A `*jwt.Token` before signing: signing method name and claims.
`jwt.New(jwt.SigningMethodHS256)` carries an empty `MapClaims`. -/
structure JwtToken where
  method : String
  claims : List (String × JwtValue)
deriving DecidableEq

/-- `jwt.New(jwt.SigningMethodHS256)`. -/
def jwtNewHS256 : JwtToken := { method := "HS256", claims := [] }

/-- The string produced by `token.SignedString(key)`, modelled by the data
the compact serialization injectively encodes: the header's signing
method, the claims, and the key the HMAC signature was computed with. -/
structure SignedJwt where
  method : String
  claims : List (String × JwtValue)
  signingKey : String
deriving DecidableEq

/-- `token.SignedString(key)`.  HMAC signing of an in-memory token with an
in-memory key cannot fail, so the library's error branch is dead here. -/
def JwtToken.signedString (t : JwtToken) (key : String) : SignedJwt :=
  { method := t.method, claims := t.claims, signingKey := key }

/-- Whether a signed token's HMAC verifies under a symmetric key. -/
def SignedJwt.verifiesWith (t : SignedJwt) (key : String) : Bool :=
  t.signingKey = key

/-! ## MongoDB `user` collection -/

/-- A BSON value as stored in the `user` collection's fields.  Go `[]byte`
payloads (BSON binary) are modelled as strings like all other byte data. -/
inductive BsonValue
  | str (s : String)
  | bin (b : String)
deriving DecidableEq

/-- Whether a BSON value is a string value. -/
def BsonValue.isStr : BsonValue → Bool
  | .str _ => true
  | _ => false

/-- One document of the `user` collection.  Every document the adapters
insert has exactly the fields `username`, `password`, `createdAt`. -/
structure UserDoc where
  username : String
  password : BsonValue
  createdAt : Int
deriving DecidableEq

/-- `collection.FindOne(ctx, bson.M{"username": username})`: the first
document, in natural (insertion) order, whose `username` field matches. -/
def findOneUser (coll : List UserDoc) (username : String) : Option UserDoc :=
  coll.find? (fun d => d.username = username)

/-- An observable effect of the core, recorded in operation traces. -/
inductive CoreOp
  /-- An `InsertOne` of a user document into the store. -/
  | opInsertUser (username : String) (password : BsonValue)
  /-- A store lookup by username (`FindOne`/`FindUser`). -/
  | opFindUser (username : String)
  /-- A `bcrypt.GenerateFromPassword` invocation. -/
  | opBcryptHash (password : String)
  /-- A `bcrypt.CompareHashAndPassword` invocation. -/
  | opBcryptCompare (hashedPassword password : String)
  /-- A `token.SignedString` invocation producing a signed token. -/
  | opSignToken (signed : SignedJwt)
deriving DecidableEq

/-! ## Persistence adapters
(`adapters/persistence/user/userPersistenceAdapter.go` and
`userPersistenceMongoAdapter.go`; their method bodies are identical.) -/

/-- `UserPersistenceAdapter.SaveUser`: inserts
`bson.M{"username": username, "password": hashedPassword, "createdAt": time.Now()}`.
The password, a Go `string`, is stored as a BSON string value. -/
def UserPersistenceAdapter.SaveUser (coll : List UserDoc) (now : Int)
    (username hashedPassword : String) :
    Option GoErr × List UserDoc × List CoreOp :=
  (none,
   coll ++ [{ username := username, password := .str hashedPassword, createdAt := now }],
   [.opInsertUser username (.str hashedPassword)])

/-- `UserPersistenceMongoAdapter.SaveUser` (same body as
`UserPersistenceAdapter.SaveUser`). -/
def UserPersistenceMongoAdapter.SaveUser (coll : List UserDoc) (now : Int)
    (username hashedPassword : String) :
    Option GoErr × List UserDoc × List CoreOp :=
  (none,
   coll ++ [{ username := username, password := .str hashedPassword, createdAt := now }],
   [.opInsertUser username (.str hashedPassword)])

/-- `UserPersistenceAdapter.LoadUser`: FindOne by username, assert the
stored `password` field is `[]byte` (BSON binary), compare with bcrypt,
then sign a fresh claim-less HS256 token with the key "my_secret_key". -/
def UserPersistenceAdapter.LoadUser (coll : List UserDoc) (username password : String) :
    Except GoErr SignedJwt × List CoreOp :=
  match findOneUser coll username with
  | none =>
    (.error (.wrapped "failed to load user: " .errMongoNoDocuments), [.opFindUser username])
  | some doc =>
    match doc.password with
    | .bin storedHash =>
      match bcryptCompareHashAndPassword storedHash password with
      | some e =>
        if errorsIs e .errMismatchedHashAndPassword then
          (.error (.errorString "invalid password or username"),
           [.opFindUser username, .opBcryptCompare storedHash password])
        else
          (.error (.wrapped "error comparing passwords: " e),
           [.opFindUser username, .opBcryptCompare storedHash password])
      | none =>
        (.ok (jwtNewHS256.signedString "my_secret_key"),
         [.opFindUser username, .opBcryptCompare storedHash password,
          .opSignToken (jwtNewHS256.signedString "my_secret_key")])
    | _ =>
      (.error (.errorString "invalid password format in database"), [.opFindUser username])

/-- `UserPersistenceMongoAdapter.LoadUser` (same body as
`UserPersistenceAdapter.LoadUser`; its TODO comment about setting claims
is not implemented, so the signed token carries no claims). -/
def UserPersistenceMongoAdapter.LoadUser (coll : List UserDoc) (username password : String) :
    Except GoErr SignedJwt × List CoreOp :=
  match findOneUser coll username with
  | none =>
    (.error (.wrapped "failed to load user: " .errMongoNoDocuments), [.opFindUser username])
  | some doc =>
    match doc.password with
    | .bin storedHash =>
      match bcryptCompareHashAndPassword storedHash password with
      | some e =>
        if errorsIs e .errMismatchedHashAndPassword then
          (.error (.errorString "invalid password or username"),
           [.opFindUser username, .opBcryptCompare storedHash password])
        else
          (.error (.wrapped "error comparing passwords: " e),
           [.opFindUser username, .opBcryptCompare storedHash password])
      | none =>
        (.ok (jwtNewHS256.signedString "my_secret_key"),
         [.opFindUser username, .opBcryptCompare storedHash password,
          .opSignToken (jwtNewHS256.signedString "my_secret_key")])
    | _ =>
      (.error (.errorString "invalid password format in database"), [.opFindUser username])

/-! ## Core domain and services (`internal/`) -/

/-- The `domain.User` record as consumed by `LoadUserService` (fields
`Username`, `Password` — the stored bcrypt hash — and `Role`). -/
structure DomainUser where
  Username : String
  Password : String
  Role : String
deriving DecidableEq

/-- Modelled from the spec: `UserPersistencePort` declares
`FindUser(username) (domain.User, error)` and `LoadUserService` calls it,
but no adapter under src/ implements it.  Per the spec's store contract
`findAccount(username) -> Account | NotFound | StoreError` and the flat
default role `"USER"` assigned at registration, the lookup returns the
first stored document's username, password hash and role, the driver's
not-found sentinel when no document matches, and a decode failure when
the stored password field is not a string. -/
def UserPersistencePort.FindUser (coll : List UserDoc) (username : String) :
    Except GoErr DomainUser × List CoreOp :=
  match findOneUser coll username with
  | none => (.error .errMongoNoDocuments, [.opFindUser username])
  | some doc =>
    match doc.password with
    | .str p =>
      (.ok { Username := doc.username, Password := p, Role := "USER" },
       [.opFindUser username])
    | _ => (.error (.errorString "error decoding user document"), [.opFindUser username])

/-- `LoadUserService.LoadUser` (`internal/service/loadUserService.go`):
find the user, compare the password with bcrypt, then sign an HS256 token
with claims username/role/exp (24 hours from now) under "my_secret_key". -/
def LoadUserService.LoadUser (coll : List UserDoc) (now : Int)
    (username password : String) : Except GoErr SignedJwt × List CoreOp :=
  match UserPersistencePort.FindUser coll username with
  | (.error e, ops) => (.error (.wrapped "error finding user: " e), ops)
  | (.ok user, ops) =>
    match bcryptCompareHashAndPassword user.Password password with
    | some e =>
      if errorsIs e .errMismatchedHashAndPassword then
        (.error (.errorString "invalid username or password"),
         ops ++ [.opBcryptCompare user.Password password])
      else
        (.error (.wrapped "error comparing passwords: " e),
         ops ++ [.opBcryptCompare user.Password password])
    | none =>
      let claims :=
        mapClaimsSet
          (mapClaimsSet
            (mapClaimsSet jwtNewHS256.claims "username" (.str user.Username))
            "role" (.str user.Role))
          "exp" (.int (now + 86400))
      let signed := JwtToken.signedString { method := jwtNewHS256.method, claims := claims }
        "my_secret_key"
      (.ok signed,
       ops ++ [.opBcryptCompare user.Password password, .opSignToken signed])

/-- `RegisterUserService.RegisterUser`
(`internal/service/registerUserService.go`): hash the password with
bcrypt at `DefaultCost` and save the username with the hash through the
persistence port (wired to the adapters' `SaveUser` in `cmd/main.go`).
With a valid cost, hashing does not fail, so the early-return error
branch is dead.  Returns the registration error, the new store state and
the operation trace. -/
def RegisterUserService.RegisterUser (coll : List UserDoc) (now : Int) (salt : Nat)
    (username password : String) :
    Option GoErr × List UserDoc × List CoreOp :=
  let hashedPassword := bcryptGenerateFromPassword password bcryptDefaultCost salt
  match UserPersistenceAdapter.SaveUser coll now username hashedPassword with
  | (e, coll', ops) => (e, coll', .opBcryptHash password :: ops)

/-! ## Helper lemmas -/

theorem parseRun_replicate (c : Char) (hc : c ≠ '$') (n : Nat) (tail : List Char) :
    parseRun c (List.replicate n c ++ '$' :: tail) = some (n, tail) := by
  induction n with
  | zero => simp [parseRun]
  | succ n ih =>
    rw [List.replicate_succ]
    simp [parseRun, hc, ih]

theorem bcryptParseChars_digest (cost salt : Nat) (password : List Char) :
    bcryptParseChars (bcryptDigestChars cost salt password) = some (cost, salt, password) := by
  simp [bcryptDigestChars, bcryptParseChars,
    parseRun_replicate 'c' (by decide), parseRun_replicate 's' (by decide)]

theorem bcryptCompare_generate_eq (password : String) (cost salt : Nat) :
    bcryptCompareHashAndPassword (bcryptGenerateFromPassword password cost salt) password
      = none := by
  simp [bcryptCompareHashAndPassword, bcryptGenerateFromPassword, bcryptParseChars_digest]

theorem bcryptCompare_generate_ne (password other : String) (cost salt : Nat)
    (h : other ≠ password) :
    bcryptCompareHashAndPassword (bcryptGenerateFromPassword password cost salt) other
      = some .errMismatchedHashAndPassword := by
  have hd : password.data ≠ other.data := by
    intro hdata
    exact h (String.ext hdata.symm)
  simp [bcryptCompareHashAndPassword, bcryptGenerateFromPassword, bcryptParseChars_digest]
  intro hcontra
  exact hd hcontra

theorem bcryptGenerate_salt_inj (password : String) (cost s1 s2 : Nat)
    (h : bcryptGenerateFromPassword password cost s1 = bcryptGenerateFromPassword password cost s2) :
    s1 = s2 := by
  have h1 := bcryptParseChars_digest cost s1 password.data
  have h2 := bcryptParseChars_digest cost s2 password.data
  have hdata : bcryptDigestChars cost s1 password.data = bcryptDigestChars cost s2 password.data := by
    have := congrArg String.data h
    simpa [bcryptGenerateFromPassword] using this
  rw [hdata, h2] at h1
  simp only [Option.some.injEq, Prod.mk.injEq] at h1
  omega

theorem findOneUser_append_fresh (coll : List UserDoc) (doc : UserDoc)
    (hfresh : ∀ d ∈ coll, d.username ≠ doc.username) :
    findOneUser (coll ++ [doc]) doc.username = some doc := by
  induction coll with
  | nil => simp [findOneUser, List.find?]
  | cons d rest ih =>
    have hd : d.username ≠ doc.username := hfresh d (by simp)
    have hrest : ∀ x ∈ rest, x.username ≠ doc.username := fun x hx => hfresh x (by simp [hx])
    simpa [findOneUser, List.find?, hd] using ih hrest

theorem mem_of_findOneUser (coll : List UserDoc) (username : String) (doc : UserDoc)
    (h : findOneUser coll username = some doc) : doc ∈ coll ∧ doc.username = username := by
  induction coll with
  | nil => simp [findOneUser, List.find?] at h
  | cons d rest ih =>
    by_cases hd : d.username = username
    · simp [findOneUser, List.find?, hd] at h
      subst h
      exact ⟨by simp, hd⟩
    · simp [findOneUser, List.find?, hd] at h
      obtain ⟨h1, h2⟩ := ih h
      exact ⟨by simp [h1], h2⟩

/-- Shape of every successful result of `LoadUserService.LoadUser`: the
lookup succeeded and the token carries exactly the username/role/exp
claims, signed HS256 under "my_secret_key". -/
theorem serviceLoadUser_ok_token (coll : List UserDoc) (now : Int)
    (username password : String) (tok : SignedJwt) (ops : List CoreOp)
    (h : LoadUserService.LoadUser coll now username password = (.ok tok, ops)) :
    ∃ user opsF,
      UserPersistencePort.FindUser coll username = (.ok user, opsF) ∧
      tok = { method := "HS256",
              claims := [("username", .str user.Username), ("role", .str user.Role),
                         ("exp", .int (now + 86400))],
              signingKey := "my_secret_key" } := by
  rcases hF : UserPersistencePort.FindUser coll username with ⟨res, opsF⟩
  cases res with
  | error e =>
    rw [LoadUserService.LoadUser, hF] at h
    simp at h
  | ok user =>
    refine ⟨user, opsF, rfl, ?_⟩
    rw [LoadUserService.LoadUser, hF] at h
    cases hc : bcryptCompareHashAndPassword user.Password password with
    | some e =>
      by_cases hmis : errorsIs e .errMismatchedHashAndPassword <;> simp [hc, hmis] at h
    | none =>
      simp [hc, mapClaimsSet, jwtNewHS256, JwtToken.signedString] at h
      exact h.1.symm

/-! ## Claims -/

/-- C1 (refuted on the code): the claim says authentication for a
never-registered username returns the very same `AuthenticationDenied`
error as a wrong-password attempt for a registered username.  In
`LoadUserService.LoadUser` the not-found case instead surfaces the store
error wrapped as "error finding user: %w", which differs from the
wrong-password error "invalid username or password" both as an error
value and in its message, so the two outcomes are distinguishable. -/
theorem claim_C1_notfound_distinguishable :
    (LoadUserService.LoadUser [] 0 "bob" "anything").1 =
        .error (.wrapped "error finding user: " .errMongoNoDocuments) ∧
    (LoadUserService.LoadUser
        [{ username := "alice",
           password := .str (bcryptGenerateFromPassword "correcthorse" bcryptDefaultCost 3),
           createdAt := 0 }]
        0 "alice" "wrong").1 = .error (.errorString "invalid username or password") ∧
    GoErr.wrapped "error finding user: " .errMongoNoDocuments ≠
        GoErr.errorString "invalid username or password" ∧
    (GoErr.wrapped "error finding user: " .errMongoNoDocuments).message ≠
        (GoErr.errorString "invalid username or password").message := by
  exact ⟨rfl, rfl, by decide, by decide⟩

/-- C2: registering a fresh valid (username, password) pair and then
authenticating with the same pair succeeds, and the signed token's claims
contain that username. -/
theorem claim_C2_register_then_authenticate (coll : List UserDoc) (now now' : Int)
    (salt : Nat) (username password : String)
    (hu : username ≠ "") (hp : password ≠ "")
    (hfresh : ∀ d ∈ coll, d.username ≠ username) :
    (RegisterUserService.RegisterUser coll now salt username password).1 = none ∧
    (LoadUserService.LoadUser
        (RegisterUserService.RegisterUser coll now salt username password).2.1
        now' username password).1 =
      .ok { method := "HS256",
            claims := [("username", .str username), ("role", .str "USER"),
                       ("exp", .int (now' + 86400))],
            signingKey := "my_secret_key" } ∧
    mapClaimsGet [("username", JwtValue.str username), ("role", JwtValue.str "USER"),
        ("exp", JwtValue.int (now' + 86400))] "username" = some (.str username) := by
  refine ⟨rfl, ?_, by simp [mapClaimsGet]⟩
  have hcoll :
      (RegisterUserService.RegisterUser coll now salt username password).2.1 =
        coll ++ [{ username := username,
                   password := .str (bcryptGenerateFromPassword password bcryptDefaultCost salt),
                   createdAt := now }] := rfl
  rw [hcoll]
  have hfind := findOneUser_append_fresh coll
    { username := username,
      password := .str (bcryptGenerateFromPassword password bcryptDefaultCost salt),
      createdAt := now }
    (by intro d hd; exact hfresh d hd)
  simp only [LoadUserService.LoadUser, UserPersistencePort.FindUser, hfind]
  simp [bcryptCompare_generate_eq, mapClaimsSet, jwtNewHS256, JwtToken.signedString]

theorem claim_C2_witness :
    (("alice" : String) ≠ "" ∧ ("correcthorse" : String) ≠ "" ∧
        (∀ d ∈ ([] : List UserDoc), d.username ≠ "alice")) ∧
    ((RegisterUserService.RegisterUser [] 0 3 "alice" "correcthorse").1 = none ∧
      (LoadUserService.LoadUser
          (RegisterUserService.RegisterUser [] 0 3 "alice" "correcthorse").2.1
          1 "alice" "correcthorse").1 =
        .ok { method := "HS256",
              claims := [("username", .str "alice"), ("role", .str "USER"),
                         ("exp", .int (1 + 86400))],
              signingKey := "my_secret_key" } ∧
      mapClaimsGet [("username", JwtValue.str "alice"), ("role", JwtValue.str "USER"),
          ("exp", JwtValue.int (1 + 86400))] "username" = some (.str "alice")) :=
  ⟨⟨by decide, by decide, by simp⟩,
   claim_C2_register_then_authenticate [] 0 1 3 "alice" "correcthorse"
     (by decide) (by decide) (by simp)⟩

/-- C3: every token issued by a successful run of the authentication flow
(`LoadUserService.LoadUser`) encodes exactly the claims username, role
and exp, with username and role taken from the account the store lookup
returned and exp equal to the issuance time plus 24 hours (86400 s). -/
theorem claim_C3_token_claims (coll : List UserDoc) (now : Int)
    (username password : String) (tok : SignedJwt) (ops : List CoreOp)
    (h : LoadUserService.LoadUser coll now username password = (.ok tok, ops)) :
    ∃ user opsF,
      UserPersistencePort.FindUser coll username = (.ok user, opsF) ∧
      tok = { method := "HS256",
              claims := [("username", .str user.Username), ("role", .str user.Role),
                         ("exp", .int (now + 86400))],
              signingKey := "my_secret_key" } :=
  serviceLoadUser_ok_token coll now username password tok ops h

theorem claim_C3_witness :
    LoadUserService.LoadUser
        [{ username := "alice",
           password := .str (bcryptGenerateFromPassword "correcthorse" bcryptDefaultCost 3),
           createdAt := 0 }]
        5 "alice" "correcthorse" =
      (.ok { method := "HS256",
             claims := [("username", .str "alice"), ("role", .str "USER"),
                        ("exp", .int (5 + 86400))],
             signingKey := "my_secret_key" },
       [.opFindUser "alice",
        .opBcryptCompare (bcryptGenerateFromPassword "correcthorse" bcryptDefaultCost 3)
          "correcthorse",
        .opSignToken { method := "HS256",
                       claims := [("username", .str "alice"), ("role", .str "USER"),
                                  ("exp", .int (5 + 86400))],
                       signingKey := "my_secret_key" }]) ∧
    ∃ user opsF,
      UserPersistencePort.FindUser
          [{ username := "alice",
             password := .str (bcryptGenerateFromPassword "correcthorse" bcryptDefaultCost 3),
             createdAt := 0 }] "alice" = (.ok user, opsF) ∧
      ({ method := "HS256",
         claims := [("username", .str "alice"), ("role", .str "USER"),
                    ("exp", .int (5 + 86400))],
         signingKey := "my_secret_key" } : SignedJwt) =
        { method := "HS256",
          claims := [("username", .str user.Username), ("role", .str user.Role),
                     ("exp", .int (5 + 86400))],
          signingKey := "my_secret_key" } :=
  ⟨rfl,
   claim_C3_token_claims
     [{ username := "alice",
        password := .str (bcryptGenerateFromPassword "correcthorse" bcryptDefaultCost 3),
        createdAt := 0 }]
     5 "alice" "correcthorse"
     { method := "HS256",
       claims := [("username", .str "alice"), ("role", .str "USER"),
                  ("exp", .int (5 + 86400))],
       signingKey := "my_secret_key" }
     [.opFindUser "alice",
      .opBcryptCompare (bcryptGenerateFromPassword "correcthorse" bcryptDefaultCost 3)
        "correcthorse",
      .opSignToken { method := "HS256",
                     claims := [("username", .str "alice"), ("role", .str "USER"),
                                ("exp", .int (5 + 86400))],
                     signingKey := "my_secret_key" }]
     rfl⟩

/-- C4 (refuted on the code): the claim says an empty username or empty
password is rejected as a validation error before any hashing or store
write.  `RegisterUserService.RegisterUser` performs no input validation:
on empty username and password it hashes the empty password, performs the
store insert, and returns success (`none`), as this evaluation shows. -/
theorem claim_C4_empty_input_not_rejected :
    RegisterUserService.RegisterUser [] 0 3 "" "" =
      (none,
       [{ username := "",
          password := .str (bcryptGenerateFromPassword "" bcryptDefaultCost 3),
          createdAt := 0 }],
       [.opBcryptHash "",
        .opInsertUser "" (.str (bcryptGenerateFromPassword "" bcryptDefaultCost 3))]) := rfl

/-- C5 (refuted on the code): the claim says a second registration of the
same username yields a conflict error.  `RegisterUserService.RegisterUser`
never checks availability (`IsUsernameAvailable` is dead code) and the
insert is unconditional, so the second call also returns success and
appends a second document; the first document's hash is unchanged and is
still the one `findOneUser` returns. -/
theorem claim_C5_duplicate_username_not_rejected :
    (RegisterUserService.RegisterUser [] 0 3 "alice" "correcthorse").1 = none ∧
    (RegisterUserService.RegisterUser
        (RegisterUserService.RegisterUser [] 0 3 "alice" "correcthorse").2.1
        1 4 "alice" "correcthorse").1 = none ∧
    (RegisterUserService.RegisterUser
        (RegisterUserService.RegisterUser [] 0 3 "alice" "correcthorse").2.1
        1 4 "alice" "correcthorse").2.1 =
      [{ username := "alice",
         password := .str (bcryptGenerateFromPassword "correcthorse" bcryptDefaultCost 3),
         createdAt := 0 },
       { username := "alice",
         password := .str (bcryptGenerateFromPassword "correcthorse" bcryptDefaultCost 4),
         createdAt := 1 }] ∧
    findOneUser
        (RegisterUserService.RegisterUser
          (RegisterUserService.RegisterUser [] 0 3 "alice" "correcthorse").2.1
          1 4 "alice" "correcthorse").2.1
        "alice" =
      some { username := "alice",
             password := .str (bcryptGenerateFromPassword "correcthorse" bcryptDefaultCost 3),
             createdAt := 0 } :=
  ⟨rfl, rfl, rfl, rfl⟩

/-- C6: every account written through the adapters' `SaveUser` has its
password stored as a BSON string, so a subsequent
`UserPersistenceAdapter.LoadUser` for a username whose matching document
was written that way fails the `[]byte` type assertion and returns the
"invalid password format in database" error; its operation trace is the
single store lookup — password verification and token signing are never
reached. -/
theorem claim_C6_saved_password_format_error (coll : List UserDoc)
    (username password : String) (doc : UserDoc)
    (hall : ∀ d ∈ coll, d.password.isStr = true)
    (hfound : findOneUser coll username = some doc) :
    UserPersistenceAdapter.LoadUser coll username password =
      (.error (.errorString "invalid password format in database"),
       [.opFindUser username]) := by
  obtain ⟨hmem, -⟩ := mem_of_findOneUser coll username doc hfound
  have hstr := hall doc hmem
  simp only [UserPersistenceAdapter.LoadUser, hfound]
  cases hp : doc.password with
  | str s => simp
  | bin b => rw [hp] at hstr; simp [BsonValue.isStr] at hstr

theorem claim_C6_witness :
    ((∀ d ∈ (UserPersistenceAdapter.SaveUser [] 0 "alice" "somebcrypthash").2.1,
        d.password.isStr = true) ∧
      findOneUser (UserPersistenceAdapter.SaveUser [] 0 "alice" "somebcrypthash").2.1
          "alice" =
        some { username := "alice", password := .str "somebcrypthash", createdAt := 0 }) ∧
    UserPersistenceAdapter.LoadUser
        (UserPersistenceAdapter.SaveUser [] 0 "alice" "somebcrypthash").2.1
        "alice" "correcthorse" =
      (.error (.errorString "invalid password format in database"),
       [.opFindUser "alice"]) :=
  ⟨⟨by decide, rfl⟩,
   claim_C6_saved_password_format_error
     (UserPersistenceAdapter.SaveUser [] 0 "alice" "somebcrypthash").2.1
     "alice" "correcthorse"
     { username := "alice", password := .str "somebcrypthash", createdAt := 0 }
     (by decide) rfl⟩

/-- C7: for a registered account whose stored hash is a well-formed
bcrypt digest of its password, authenticating with the correct username
and any incorrect password returns exactly the generic
`AuthenticationDenied` error "invalid username or password" — in
particular never a wrapped system error. -/
theorem claim_C7_wrong_password_denied (coll : List UserDoc) (now : Int)
    (username password other : String) (cost salt : Nat) (doc : UserDoc)
    (hfind : findOneUser coll username = some doc)
    (hhash : doc.password = .str (bcryptGenerateFromPassword password cost salt))
    (hne : other ≠ password) :
    LoadUserService.LoadUser coll now username other =
      (.error (.errorString "invalid username or password"),
       [.opFindUser username,
        .opBcryptCompare (bcryptGenerateFromPassword password cost salt) other]) := by
  simp only [LoadUserService.LoadUser, UserPersistencePort.FindUser, hfind, hhash]
  simp [bcryptCompare_generate_ne password other cost salt hne, errorsIs]

theorem claim_C7_witness :
    (findOneUser
        [{ username := "alice",
           password := .str (bcryptGenerateFromPassword "correcthorse" bcryptDefaultCost 3),
           createdAt := 0 }] "alice" =
      some { username := "alice",
             password := .str (bcryptGenerateFromPassword "correcthorse" bcryptDefaultCost 3),
             createdAt := 0 } ∧
      ({ username := "alice",
         password := .str (bcryptGenerateFromPassword "correcthorse" bcryptDefaultCost 3),
         createdAt := 0 } : UserDoc).password =
        .str (bcryptGenerateFromPassword "correcthorse" bcryptDefaultCost 3) ∧
      ("wrong" : String) ≠ "correcthorse") ∧
    LoadUserService.LoadUser
        [{ username := "alice",
           password := .str (bcryptGenerateFromPassword "correcthorse" bcryptDefaultCost 3),
           createdAt := 0 }]
        0 "alice" "wrong" =
      (.error (.errorString "invalid username or password"),
       [.opFindUser "alice",
        .opBcryptCompare (bcryptGenerateFromPassword "correcthorse" bcryptDefaultCost 3)
          "wrong"]) :=
  ⟨⟨rfl, rfl, by decide⟩,
   claim_C7_wrong_password_denied
     [{ username := "alice",
        password := .str (bcryptGenerateFromPassword "correcthorse" bcryptDefaultCost 3),
        createdAt := 0 }]
     0 "alice" "correcthorse" "wrong" bcryptDefaultCost 3
     { username := "alice",
       password := .str (bcryptGenerateFromPassword "correcthorse" bcryptDefaultCost 3),
       createdAt := 0 }
     rfl rfl (by decide)⟩

/-- C8: password hashing is salted and non-deterministic — two
invocations of `bcrypt.GenerateFromPassword` at `DefaultCost` that draw
distinct salts produce different digests, and `CompareHashAndPassword`
verifies the plaintext against each of the two digests. -/
theorem claim_C8_salted_nondeterministic_hashing (password : String) (s1 s2 : Nat)
    (h : s1 ≠ s2) :
    bcryptGenerateFromPassword password bcryptDefaultCost s1 ≠
        bcryptGenerateFromPassword password bcryptDefaultCost s2 ∧
    bcryptCompareHashAndPassword
        (bcryptGenerateFromPassword password bcryptDefaultCost s1) password = none ∧
    bcryptCompareHashAndPassword
        (bcryptGenerateFromPassword password bcryptDefaultCost s2) password = none :=
  ⟨fun he => h (bcryptGenerate_salt_inj password bcryptDefaultCost s1 s2 he),
   bcryptCompare_generate_eq password bcryptDefaultCost s1,
   bcryptCompare_generate_eq password bcryptDefaultCost s2⟩

theorem claim_C8_witness :
    (0 : Nat) ≠ 1 ∧
    (bcryptGenerateFromPassword "x" bcryptDefaultCost 0 ≠
        bcryptGenerateFromPassword "x" bcryptDefaultCost 1 ∧
      bcryptCompareHashAndPassword
          (bcryptGenerateFromPassword "x" bcryptDefaultCost 0) "x" = none ∧
      bcryptCompareHashAndPassword
          (bcryptGenerateFromPassword "x" bcryptDefaultCost 1) "x" = none) :=
  ⟨by decide, claim_C8_salted_nondeterministic_hashing "x" 0 1 (by decide)⟩

/-- C9: `RegisterUserService.RegisterUser` has no side effect besides the
single store write — its full behaviour is: success, the store extended
by exactly the one new document, and an operation trace consisting of
exactly one hash invocation and one store insert (in particular no token
signing and no further store operation). -/
theorem claim_C9_register_single_store_write (coll : List UserDoc) (now : Int)
    (salt : Nat) (username password : String) :
    RegisterUserService.RegisterUser coll now salt username password =
      (none,
       coll ++ [{ username := username,
                  password := .str (bcryptGenerateFromPassword password bcryptDefaultCost salt),
                  createdAt := now }],
       [.opBcryptHash password,
        .opInsertUser username
          (.str (bcryptGenerateFromPassword password bcryptDefaultCost salt))]) := rfl

/-- C10: every token issued by any of the three authenticate
implementations in the repository (`LoadUserService.LoadUser` and the two
persistence adapters' `LoadUser`) is an HS256 token whose HMAC was
computed with the single fixed key "my_secret_key", and any such token
verifies under that key.  (Signing is deterministic by construction: each
embedded implementation is a function of the store, the issuance time and
the credentials.) -/
theorem claim_C10_single_signing_key (coll : List UserDoc) (now : Int)
    (username password : String) (tok : SignedJwt)
    (h : (∃ ops, LoadUserService.LoadUser coll now username password = (.ok tok, ops)) ∨
         (∃ ops, UserPersistenceAdapter.LoadUser coll username password = (.ok tok, ops)) ∨
         (∃ ops, UserPersistenceMongoAdapter.LoadUser coll username password = (.ok tok, ops))) :
    tok.method = "HS256" ∧ tok.signingKey = "my_secret_key" ∧
      tok.verifiesWith "my_secret_key" = true := by
  have hkey : tok.method = "HS256" ∧ tok.signingKey = "my_secret_key" := by
    rcases h with ⟨ops, h⟩ | ⟨ops, h⟩ | ⟨ops, h⟩
    · obtain ⟨user, opsF, -, htok⟩ :=
        serviceLoadUser_ok_token coll now username password tok ops h
      rw [htok]
      exact ⟨rfl, rfl⟩
    · rw [UserPersistenceAdapter.LoadUser] at h
      rcases hf : findOneUser coll username with - | doc <;> rw [hf] at h
      · simp at h
      · cases hp : doc.password with
        | str s => simp [hp] at h
        | bin b =>
          cases hc : bcryptCompareHashAndPassword b password with
          | some e =>
            by_cases hmis : errorsIs e .errMismatchedHashAndPassword <;>
              simp [hp, hc, hmis] at h
          | none =>
            simp [hp, hc, jwtNewHS256, JwtToken.signedString] at h
            rw [← h.1]
            exact ⟨rfl, rfl⟩
    · rw [UserPersistenceMongoAdapter.LoadUser] at h
      rcases hf : findOneUser coll username with - | doc <;> rw [hf] at h
      · simp at h
      · cases hp : doc.password with
        | str s => simp [hp] at h
        | bin b =>
          cases hc : bcryptCompareHashAndPassword b password with
          | some e =>
            by_cases hmis : errorsIs e .errMismatchedHashAndPassword <;>
              simp [hp, hc, hmis] at h
          | none =>
            simp [hp, hc, jwtNewHS256, JwtToken.signedString] at h
            rw [← h.1]
            exact ⟨rfl, rfl⟩
  exact ⟨hkey.1, hkey.2, by simp [SignedJwt.verifiesWith, hkey.2]⟩

theorem claim_C10_witness :
    ((∃ ops,
        LoadUserService.LoadUser
            [{ username := "alice",
               password := .str (bcryptGenerateFromPassword "correcthorse" bcryptDefaultCost 3),
               createdAt := 0 }]
            5 "alice" "correcthorse" =
          (.ok { method := "HS256",
                 claims := [("username", .str "alice"), ("role", .str "USER"),
                            ("exp", .int (5 + 86400))],
                 signingKey := "my_secret_key" }, ops)) ∨
      (∃ ops,
        UserPersistenceAdapter.LoadUser
            [{ username := "alice",
               password := .str (bcryptGenerateFromPassword "correcthorse" bcryptDefaultCost 3),
               createdAt := 0 }]
            "alice" "correcthorse" =
          (.ok { method := "HS256",
                 claims := [("username", .str "alice"), ("role", .str "USER"),
                            ("exp", .int (5 + 86400))],
                 signingKey := "my_secret_key" }, ops)) ∨
      (∃ ops,
        UserPersistenceMongoAdapter.LoadUser
            [{ username := "alice",
               password := .str (bcryptGenerateFromPassword "correcthorse" bcryptDefaultCost 3),
               createdAt := 0 }]
            "alice" "correcthorse" =
          (.ok { method := "HS256",
                 claims := [("username", .str "alice"), ("role", .str "USER"),
                            ("exp", .int (5 + 86400))],
                 signingKey := "my_secret_key" }, ops))) ∧
    (({ method := "HS256",
        claims := [("username", .str "alice"), ("role", .str "USER"),
                   ("exp", .int (5 + 86400))],
        signingKey := "my_secret_key" } : SignedJwt).method = "HS256" ∧
      ({ method := "HS256",
         claims := [("username", .str "alice"), ("role", .str "USER"),
                    ("exp", .int (5 + 86400))],
         signingKey := "my_secret_key" } : SignedJwt).signingKey = "my_secret_key" ∧
      SignedJwt.verifiesWith
          { method := "HS256",
            claims := [("username", .str "alice"), ("role", .str "USER"),
                       ("exp", .int (5 + 86400))],
            signingKey := "my_secret_key" } "my_secret_key" = true) :=
  ⟨Or.inl
    ⟨[.opFindUser "alice",
      .opBcryptCompare (bcryptGenerateFromPassword "correcthorse" bcryptDefaultCost 3)
        "correcthorse",
      .opSignToken { method := "HS256",
                     claims := [("username", .str "alice"), ("role", .str "USER"),
                                ("exp", .int (5 + 86400))],
                     signingKey := "my_secret_key" }], rfl⟩,
   claim_C10_single_signing_key
     [{ username := "alice",
        password := .str (bcryptGenerateFromPassword "correcthorse" bcryptDefaultCost 3),
        createdAt := 0 }]
     5 "alice" "correcthorse"
     { method := "HS256",
       claims := [("username", .str "alice"), ("role", .str "USER"),
                  ("exp", .int (5 + 86400))],
       signingKey := "my_secret_key" }
     (Or.inl
       ⟨[.opFindUser "alice",
         .opBcryptCompare (bcryptGenerateFromPassword "correcthorse" bcryptDefaultCost 3)
           "correcthorse",
         .opSignToken { method := "HS256",
                        claims := [("username", .str "alice"), ("role", .str "USER"),
                                   ("exp", .int (5 + 86400))],
                        signingKey := "my_secret_key" }], rfl⟩)⟩
